import Mathlib

/-!
Shallow embedding of `lib/connection/requester.py` (class `Requester`):
URL normalization performed by `Requester.__init__`, the header store,
proxy selection, and the retry loop of `Requester.request`.

External collaborators are modelled as oracles:
* DNS (`socket.gethostbyname`) is a function `String → Option String`
  (`none` = `socket.gaierror`);
* the transport (`requests.Session.request`) is a function from the attempt
  index and the exchanged arguments to a closed set of outcomes mirroring the
  exception classes caught by the source;
* `random.choice` draws are supplied by index oracles `Nat → Nat`.

Strings are manipulated through their character lists so that every
definition is executable and kernel-reducible.
-/

set_option autoImplicit false

namespace Dirsearch

/-! ### Python primitives -/

/-- Python truthiness of an optional string (`None` and `""` are falsy). -/
def truthyS : Option String → Bool
  | none => false
  | some s => s ≠ ""

/-- Python truthiness of an optional list (`None` and `[]` are falsy). -/
def truthyL : Option (List String) → Bool
  | none => false
  | some l => l ≠ []

/-- `str(x)` for an optional string: Python formats `None` as `"None"`. -/
def pyStrOpt : Option String → String
  | none => "None"
  | some s => s

/-- Characters before the first occurrence of `t`, and the characters after
it (`none` when `t` does not occur): the two halves of `s.split(t, 1)`. -/
def splitAtChar (t : Char) : List Char → List Char × Option (List Char)
  | [] => ([], none)
  | c :: cs =>
    if c = t then ([], some cs)
    else
      let r := splitAtChar t cs
      (c :: r.1, r.2)

/-- Python `s.split(t)` for a one-character separator, on character lists. -/
def splitOnChar (t : Char) : List Char → List (List Char)
  | [] => [[]]
  | c :: cs =>
    if c = t then [] :: splitOnChar t cs
    else
      match splitOnChar t cs with
      | [] => [[c]]
      | g :: gs => (c :: g) :: gs

/-- Characters of `cs` before the first stop character, and the rest. -/
def takeUntilAny (stops : List Char) : List Char → List Char × List Char
  | [] => ([], [])
  | c :: cs =>
    if c ∈ stops then ([], c :: cs)
    else
      let r := takeUntilAny stops cs
      (c :: r.1, r.2)

/-- Whether `needle` occurs as a contiguous sublist of `hay`
(Python's `needle in hay` on strings). -/
def containsSub (needle : List Char) : List Char → Bool
  | [] => needle.isPrefixOf []
  | c :: cs => needle.isPrefixOf (c :: cs) || containsSub needle cs

/-- Python `str.strip()`: remove leading and trailing whitespace. -/
def pyStrip (s : String) : String :=
  String.mk (((s.data.dropWhile Char.isWhitespace).reverse.dropWhile
    Char.isWhitespace).reverse)

/-- Parse a nonempty run of decimal digits (helper for `pyInt`). -/
def digitsToNat : List Char → Option Nat
  | [] => none
  | cs =>
    if cs.all Char.isDigit then
      some (cs.foldl (fun n c => n * 10 + (c.toNat - 48)) 0)
    else none

/-- Python `int(s)` on a decimal string: optional surrounding whitespace,
optional sign, then digits; `none` models `ValueError`.  (Underscore digit
grouping, accepted by CPython, is not modelled: the source only ever risks
it on a URL port segment.) -/
def pyInt (s : String) : Option Int :=
  let cs := (s.data.dropWhile Char.isWhitespace).reverse.dropWhile
    Char.isWhitespace |>.reverse
  match cs with
  | '+' :: ds => (digitsToNat ds).map Int.ofNat
  | '-' :: ds => (digitsToNat ds).map (fun n => -(Int.ofNat n))
  | ds => (digitsToNat ds).map Int.ofNat

/-! ### `urllib.parse.urlparse` (scheme / netloc / path components) -/

/-- The result components of `urllib.parse.urlparse` used by the source. -/
structure PyParsed where
  scheme : String
  netloc : String
  path : String
  deriving DecidableEq, Repr

/-- Characters allowed in a URL scheme by `urllib.parse`. -/
def schemeChar (c : Char) : Bool :=
  c.isAlpha || c.isDigit || c = '+' || c = '-' || c = '.'

/-- Split off `scheme:` when the text before the first `:` is a nonempty run
of scheme characters; the scheme is lowercased (as `urlsplit` does). -/
def pySplitScheme (cs : List Char) : String × List Char :=
  match splitAtChar ':' cs with
  | (before, some rest) =>
    if before ≠ [] ∧ before.all schemeChar then
      (String.mk (before.map Char.toLower), rest)
    else ("", cs)
  | (_, none) => ("", cs)

/-- Drop `;params` from the path, as `urlparse._splitparams`: the `;` is
looked for only at or after the last `/` of the path. -/
def pySplitParams (cs : List Char) : List Char :=
  if containsSub [';'] cs then
    if containsSub ['/'] cs then
      let lastSeg := (splitOnChar '/' cs).getLastD []
      match splitAtChar ';' lastSeg with
      | (_, none) => cs
      | (kept, some _) => cs.take (cs.length - lastSeg.length) ++ kept
    else (splitAtChar ';' cs).1
  else cs

/-- The schemes for which `urlparse` splits `;params` off the path. -/
def usesParams : List String :=
  ["", "ftp", "hdl", "prospero", "http", "imap", "https", "shttp", "rtsp",
    "rtspu", "sip", "sips", "mms", "sftp", "tel"]

/-- `urllib.parse.urlparse`, restricted to the `scheme`/`netloc`/`path`
components the source reads.  Query (`?…`), fragment (`#…`) and params
(`;…`) are split off the path exactly as CPython does. -/
def pyUrlparse (url : String) : PyParsed :=
  let (scheme, rest) := pySplitScheme url.data
  let (netloc, rest2) :=
    match rest with
    | '/' :: '/' :: r => takeUntilAny ['/', '?', '#'] r
    | _ => ([], rest)
  let noFrag := (splitAtChar '#' rest2).1
  let noQuery := (splitAtChar '?' noFrag).1
  { scheme := scheme
    netloc := String.mk netloc
    path := String.mk (if scheme ∈ usesParams then pySplitParams noQuery else noQuery) }

/-! ### `urllib.parse.quote` with the source's explicit safe set -/

/-- The characters `urllib.parse.quote` never encodes, besides the `safe`
parameter: ASCII letters, digits and `_.-~`. -/
def alwaysSafeChar (c : Char) : Bool :=
  c.isAlpha || c.isDigit || c = '_' || c = '.' || c = '-' || c = '~'

/-- The `safe` string the source passes to `quote` (line 69):
`!"#$%&'()*+,-./:;<=>?@[\]^_`{|}~`. -/
def safeParamChars : String :=
  "!\"#$%&'()*+,-./:;<=>?@[\\]^_`\x7b|\x7d~"

/-- Whether `quote(…, safe=safeParamChars)` leaves `c` unencoded. -/
def quoteSafe (c : Char) : Bool :=
  alwaysSafeChar c || safeParamChars.data.contains c

/-- UTF-8 encoding of a code point, as a list of byte values. -/
def utf8Bytes (n : Nat) : List Nat :=
  if n < 0x80 then [n]
  else if n < 0x800 then [0xC0 + n / 64, 0x80 + n % 64]
  else if n < 0x10000 then
    [0xE0 + n / 4096, 0x80 + n / 64 % 64, 0x80 + n % 64]
  else
    [0xF0 + n / 262144, 0x80 + n / 4096 % 64, 0x80 + n / 64 % 64,
      0x80 + n % 64]

/-- Uppercase hexadecimal digit, as used by `quote`'s `%XX` escapes. -/
def hexDigit (n : Nat) : Char :=
  if n < 10 then Char.ofNat (48 + n) else Char.ofNat (55 + n)

/-- The `%XX` escape of one byte. -/
def pctByte (b : Nat) : List Char :=
  ['%', hexDigit (b / 16), hexDigit (b % 16)]

/-- `quote` of a single character: kept when safe, otherwise each UTF-8
byte is percent-encoded. -/
def quoteChar (c : Char) : List Char :=
  if quoteSafe c then [c] else ((utf8Bytes c.toNat).map pctByte).flatten

/-- `urllib.parse.quote(s, safe=safeParamChars)` over a character list. -/
def quoteList (cs : List Char) : List Char :=
  (cs.map quoteChar).flatten

/-! ### The header dictionary -/

/-- Lookup in an insertion-ordered string dictionary. -/
def dictGet : List (String × String) → String → Option String
  | [], _ => none
  | (k0, v0) :: rest, k => if k0 = k then some v0 else dictGet rest k

/-- Python `d[k] = v`: overwrite the entry in place, else append. -/
def dictSet : List (String × String) → String → String → List (String × String)
  | [], k, v => [(k, v)]
  | (k0, v0) :: rest, k, v =>
    if k0 = k then (k, v) :: rest else (k0, v0) :: dictSet rest k v

/-! ### The `Requester` state and `__init__` (URL normalization) -/

/-- The long-lived configuration built by `Requester.__init__`.
(`self.pool` and `self.session` are transport handles with no observable
state in the embedding and are omitted; `ip = none` models the attribute
never having been assigned.) -/
structure Requester where
  httpmethod : String
  data : Option String
  headers : List (String × String)
  basePath : String
  protocol : String
  host : String
  ip : Option String
  port : Int
  maxRetries : Nat
  maxPool : Nat
  timeout : Nat
  proxy : Option String
  proxylist : Option (List String)
  redirect : Bool
  randomAgents : Option (List String)
  requestByHostname : Bool
  url : String
  deriving DecidableEq, Repr

/-- Failures of `__init__`: `RequestException` carrying a message
(a configuration error), or the `AttributeError` raised when
`self.url` is built from a never-assigned `self.ip` (line 115). -/
inductive InitError where
  | configError (message : String)
  | attributeError
  deriving DecidableEq, Repr

/-- Line 50-51: append a trailing `/` when missing. -/
def withSlash (u : String) : String :=
  if u.data.getLast? = some '/' then u else u ++ "/"

/-- Line 56: `"://" in url` (after the trailing slash was ensured). -/
def hasDelim (url0 : String) : Bool :=
  containsSub "://".data (withSlash url0).data

/-- Line 57: `"{0}://{1}".format(scheme, url)`; Python renders the default
`scheme=None` as the text `None`. -/
def fmtOptScheme : Option String → String
  | none => "None"
  | some s => s

/-- The parse the constructor works with: the URL itself when it contains
`://`, else the re-parse with the synthesized scheme (lines 53-57). -/
def effectiveParsed (url0 : String) (scheme : Option String) : PyParsed :=
  if hasDelim url0 then pyUrlparse (withSlash url0)
  else pyUrlparse (fmtOptScheme scheme ++ "://" ++ withSlash url0)

/-- Lines 53-61: parse, synthesize a scheme when the delimiter is absent,
and reject non-`http(s)` schemes — the rejection sits in an `elif`, so it
only fires when the input itself contained `://`. -/
def schemeCheck (url0 : String) (scheme : Option String) :
    Except InitError PyParsed :=
  if hasDelim url0 ∧ (effectiveParsed url0 scheme).scheme ≠ "https" ∧
      (effectiveParsed url0 scheme).scheme ≠ "http" then
    .error (.configError
      ("Unsupported URL scheme: " ++ (effectiveParsed url0 scheme).scheme))
  else .ok (effectiveParsed url0 scheme)

/-- Lines 63-69: strip one leading `/` from the path, then safe-quote. -/
def basePathOf (p : PyParsed) : String :=
  let cs := p.path.data
  String.mk (quoteList (if cs.head? = some '/' then cs.tail else cs))

/-- Line 71: `parsed.netloc.split(":")[0]`. -/
def hostOfParsed (p : PyParsed) : String :=
  String.mk ((splitOnChar ':' p.netloc.data).headD [])

/-- Line 86: `parsed.netloc.split(":")[1]`, when present. -/
def portSegOf (p : PyParsed) : Option String :=
  ((splitOnChar ':' p.netloc.data)[1]?).map String.mk

/-- Lines 74-82: pin the override ip; else resolve DNS only when neither a
proxy nor a proxy list is configured.  `.ok none` means `self.ip` was never
assigned. -/
def ipStage (host : String) (ip proxy : Option String)
    (proxylist : Option (List String)) (dns : String → Option String) :
    Except InitError (Option String) :=
  if truthyS ip then .ok ip
  else if truthyS proxy = false ∧ truthyL proxylist = false then
    match dns host with
    | some addr => .ok (some addr)
    | none => .error (.configError "Couldn't resolve DNS")
  else .ok none

/-- Lines 84-92: default port on `IndexError`, `ConfigError` on
`ValueError`. -/
def portStage (p : PyParsed) : Except InitError Int :=
  match portSegOf p with
  | none => .ok (if p.scheme = "https" then 443 else 80)
  | some seg =>
    match pyInt seg with
    | some n => .ok n
    | none => .error (.configError ("Invalid port number: " ++ seg))

/-- Lines 94-101: the auto-managed `Host` header value. -/
def hostHeaderValue (protocol host : String) (port : Int) : String :=
  if (protocol = "https" ∧ port ≠ 443) ∨ (protocol = "http" ∧ port ≠ 80)
  then host ++ ":" ++ toString port
  else host

/-- `"{0}://{1}:{2}/"` base-URL formatting (lines 113-117 and 181). -/
def mkBaseUrl (protocol h : String) (port : Int) : String :=
  protocol ++ "://" ++ h ++ ":" ++ toString port ++ "/"

/-- Lines 112-117: build `self.url`; reading the never-assigned `self.ip`
raises `AttributeError`.  (The Python conditional expression evaluates only
the taken branch, so `requestByHostname=True` never touches `self.ip`.) -/
def urlStage (requestByHostname : Bool) (protocol host : String)
    (ipField : Option String) (port : Int) : Except InitError String :=
  if requestByHostname then .ok (mkBaseUrl protocol host port)
  else
    match ipField with
    | some addr => .ok (mkBaseUrl protocol addr port)
    | none => .error .attributeError

/-- `Requester.__init__` (lines 30-117), with DNS as an oracle. -/
def initRequester (url0 : String) (maxPool maxRetries timeout : Nat)
    (ip proxy : Option String) (proxylist : Option (List String))
    (redirect requestByHostname : Bool) (httpmethod : String)
    (data : Option String) (scheme : Option String)
    (dns : String → Option String) : Except InitError Requester :=
  match schemeCheck url0 scheme with
  | .error e => .error e
  | .ok parsed =>
    match ipStage (hostOfParsed parsed) ip proxy proxylist dns with
    | .error e => .error e
    | .ok ipField =>
      match portStage parsed with
      | .error e => .error e
      | .ok port =>
        match urlStage requestByHostname parsed.scheme (hostOfParsed parsed)
            ipField port with
        | .error e => .error e
        | .ok baseUrl =>
          .ok
            { httpmethod := httpmethod
              data := data
              headers := dictSet [] "Host"
                (hostHeaderValue parsed.scheme (hostOfParsed parsed) port)
              basePath := basePathOf parsed
              protocol := parsed.scheme
              host := hostOfParsed parsed
              ip := ipField
              port := port
              maxRetries := maxRetries
              maxPool := maxPool
              timeout := timeout
              proxy := proxy
              proxylist := proxylist
              redirect := redirect
              randomAgents := none
              requestByHostname := requestByHostname
              url := baseUrl }

/-- Lines 119-120: `setHeader` trims the key, and the value when truthy. -/
def setHeader (r : Requester) (key value : String) : Requester :=
  let v := if value ≠ "" then pyStrip value else value
  { r with headers := dictSet r.headers (pyStrip key) v }

/-- Lines 122-123: `setRandomAgents`. -/
def setRandomAgents (r : Requester) (agents : List String) : Requester :=
  { r with randomAgents := some agents }

/-- Lines 125-126: `unsetRandomAgents`. -/
def unsetRandomAgents (r : Requester) : Requester :=
  { r with randomAgents := none }

/-! ### The `request` retry loop -/

/-- The `Response` value built on a successful exchange (line 171-176). -/
structure Response where
  statusCode : Int
  reason : String
  headers : List (String × String)
  content : List Nat
  deriving DecidableEq, Repr

/-- The closed set of transport outcomes: a completed exchange, or one of
the exception classes caught by lines 180-209. -/
inductive Outcome where
  | success (statusCode : Int) (reason : String)
      (headers : List (String × String)) (content : List Nat)
  | sslError
  | tooManyRedirects
  | proxyError
  | connectionError
  | invalidURL
  | invalidProxyURL
  | timeout
  | otherException
  deriving DecidableEq, Repr

/-- The `proxies` dictionary handed to the transport: its `http` and
`https` entries (lines 146-153). -/
structure Proxies where
  http : Option String
  https : Option String
  deriving DecidableEq, Repr

/-- Everything passed to `self.session.request` (lines 160-169). -/
structure Exchange where
  method : String
  url : String
  data : Option String
  proxies : Option Proxies
  allowRedirects : Bool
  headers : List (String × String)
  timeout : Nat
  verify : Bool
  deriving DecidableEq, Repr

/-- `startswith` for the proxy scheme tests, over character data. -/
def strStartsWith (s pre : String) : Bool :=
  pre.data.isPrefixOf s.data

/-- Lines 141-144: prepend `http://` when the proxy string has no
recognized scheme. -/
def normalizeProxy (p : String) : String :=
  if !(strStartsWith p "http://" || strStartsWith p "https://" ||
      strStartsWith p "socks5://" || strStartsWith p "socks5h://" ||
      strStartsWith p "socks4://" || strStartsWith p "socks4a://") then
    "http://" ++ p
  else p

/-- Lines 146-151: map the (normalized) proxy onto the proxies dict. -/
def proxiesFor (p : String) : Proxies :=
  if strStartsWith p "http:" then { http := some p, https := some p }
  else if strStartsWith p "https:" then { http := none, https := some p }
  else { http := some p, https := some p }

/-- `random.choice(l)`: an oracle-chosen index, reduced modulo the length
so that the pick is always a member of a nonempty list. -/
def listChoice (l : List String) (pick : Nat) : String :=
  l.getD (pick % l.length) ""

/-- The mutable state of one `request` call: `self`, the call's `proxy`
variable, the `result` and `error` locals, and the number of exchanges
performed so far. -/
structure LoopState where
  req : Requester
  proxy : Option String
  result : Option Response
  error : Option String
  attempts : Nat
  deriving DecidableEq, Repr

/-- Lines 134-138: `if not proxy: …` — resolve the call's proxy from the
rotation list, else the instance proxy; keep it untouched when already
truthy. -/
def resolveProxy (s : LoopState) (pick : Nat) : Option String :=
  if truthyS s.proxy then s.proxy
  else if truthyL s.req.proxylist then
    match s.req.proxylist with
    | some l => some (listChoice l pick)
    | none => s.proxy
  else if truthyS s.req.proxy then s.req.proxy
  else s.proxy

/-- Lines 140-153: normalize a truthy proxy (reassigning the variable) and
build the proxies dict; a falsy proxy yields no proxies. -/
def normalizeStep : Option String → Option String × Option Proxies
  | none => (none, none)
  | some p =>
    if p = "" then (some p, none)
    else
      let q := normalizeProxy p
      (some q, some (proxiesFor q))

/-- Lines 157-158: when `randomAgents` is truthy, set the `User-Agent`
header to an oracle-chosen member. -/
def uaUpdate (r : Requester) (pick : Nat) : Requester :=
  match r.randomAgents with
  | some agents =>
    if agents ≠ [] then
      { r with headers := dictSet r.headers "User-Agent" (listChoice agents pick) }
    else r
  | none => r

/-- The arguments attempt `i` hands to the transport, built from the loop
state exactly as lines 134-169 do. -/
def exchangeAt (pickP pickUA : Nat → Nat) (path : String) (i : Nat)
    (s : LoopState) : Exchange :=
  { method := s.req.httpmethod
    url := s.req.url ++ s.req.basePath ++ path
    data := s.req.data
    proxies := (normalizeStep (resolveProxy s (pickP i))).2
    allowRedirects := s.req.redirect
    headers := (uaUpdate s.req (pickUA i)).headers
    timeout := s.req.timeout
    verify := false }

/-- The effect of one loop iteration: `halt` is the `break` on success,
`next` falls through (or `continue`s) to the following iteration. -/
inductive StepOut where
  | halt (s : LoopState)
  | next (s : LoopState)
  deriving DecidableEq, Repr

/-- Project the state out of a step effect. -/
def StepOut.state : StepOut → LoopState
  | .halt s => s
  | .next s => s

/-- One iteration of the `for i in range(self.maxRetries)` body
(lines 133-209): resolve the proxy, build the URL, maybe rotate the
User-Agent, perform the exchange, then classify the outcome. -/
def stepAttempt (transport : Nat → Exchange → Outcome)
    (pickP pickUA : Nat → Nat) (path : String) (i : Nat) (s : LoopState) :
    StepOut :=
  let proxyVar := (normalizeStep (resolveProxy s (pickP i))).1
  let req1 := uaUpdate s.req (pickUA i)
  let url := s.req.url ++ s.req.basePath ++ path
  match transport i (exchangeAt pickP pickUA path i s) with
  | .success code reason hdrs body =>
    .halt { req := req1, proxy := proxyVar,
            result := some ⟨code, reason, hdrs, body⟩,
            error := s.error, attempts := s.attempts + 1 }
  | .sslError =>
    .next { req := { req1 with
              url := mkBaseUrl req1.protocol req1.host req1.port },
            proxy := proxyVar, result := s.result, error := s.error,
            attempts := s.attempts + 1 }
  | .tooManyRedirects =>
    .next { req := req1, proxy := proxyVar, result := s.result,
            error := some ("Too many redirects: " ++ url),
            attempts := s.attempts + 1 }
  | .proxyError =>
    .next { req := req1, proxy := proxyVar, result := s.result,
            error := some ("Error with the proxy: " ++ pyStrOpt proxyVar),
            attempts := s.attempts + 1 }
  | .connectionError =>
    .next { req := req1, proxy := proxyVar, result := s.result,
            error := some ("Cannot connect to: " ++ s.req.host ++ ":" ++
              toString s.req.port),
            attempts := s.attempts + 1 }
  | .invalidURL =>
    .next { req := req1, proxy := proxyVar, result := s.result,
            error := some ("Invalid URL: " ++ url),
            attempts := s.attempts + 1 }
  | .invalidProxyURL =>
    .next { req := req1, proxy := proxyVar, result := s.result,
            error := some ("Invalid proxy URL: " ++ pyStrOpt proxyVar),
            attempts := s.attempts + 1 }
  | .timeout =>
    .next { req := req1, proxy := proxyVar, result := s.result,
            error := some ("Request timeout: " ++ url),
            attempts := s.attempts + 1 }
  | .otherException =>
    .next { req := req1, proxy := proxyVar, result := s.result,
            error := some ("There was a problem in the request to: " ++ url),
            attempts := s.attempts + 1 }

/-- Run up to `fuel` remaining iterations starting at index `i`. -/
def runLoop (transport : Nat → Exchange → Outcome)
    (pickP pickUA : Nat → Nat) (path : String) :
    Nat → Nat → LoopState → LoopState
  | 0, _, s => s
  | fuel + 1, i, s =>
    match stepAttempt transport pickP pickUA path i s with
    | .halt s1 => s1
    | .next s1 => runLoop transport pickP pickUA path fuel (i + 1) s1

instance exceptDecEq {ε α : Type} [DecidableEq ε] [DecidableEq α] :
    DecidableEq (Except ε α)
  | .error e, .error f =>
    if h : e = f then .isTrue (by rw [h])
    else .isFalse (fun hh => h (by injection hh))
  | .error _, .ok _ => .isFalse (fun hh => Except.noConfusion hh)
  | .ok _, .error _ => .isFalse (fun hh => Except.noConfusion hh)
  | .ok a, .ok b =>
    if h : a = b then .isTrue (by rw [h])
    else .isFalse (fun hh => h (by injection hh))

/-- What a `request` call produces: the final `self` state, the returned
value (`.ok` a `Response` or `None`) or the raised `RequestException`
message (`.error`), and how many exchanges were performed. -/
structure RequestResult where
  finalReq : Requester
  outcome : Except String (Option Response)
  attempts : Nat
  deriving DecidableEq, Repr

/-- `Requester.request` (lines 128-214).  After the loop, a pending error
message is raised even when a later attempt succeeded (line 211 tests only
`error`); otherwise the `result` local is returned as-is. -/
def Requester.request (r : Requester) (path : String) (proxy : Option String)
    (transport : Nat → Exchange → Outcome) (pickP pickUA : Nat → Nat) :
    RequestResult :=
  let s0 : LoopState :=
    { req := r, proxy := proxy, result := none, error := none, attempts := 0 }
  let s := runLoop transport pickP pickUA path r.maxRetries 0 s0
  { finalReq := s.req
    outcome :=
      match s.error with
      | some e => .error e
      | none => .ok s.result
    attempts := s.attempts }

/-! ### Concrete fixtures for witnesses and counterexamples -/

/-- A DNS oracle that resolves every name. -/
def dnsConst : String → Option String := fun _ => some "93.184.216.34"

/-- A DNS oracle for which every lookup fails (`socket.gaierror`). -/
def dnsNone : String → Option String := fun _ => none

/-- A degenerate randomness oracle. -/
def zeros : Nat → Nat := fun _ => 0

/-- A concrete constructed `Requester` (as built from
`http://example.com/` with a resolving DNS), parametrized by
`maxRetries`. -/
def mkReq (n : Nat) : Requester :=
  { httpmethod := "get", data := none, headers := [("Host", "example.com")],
    basePath := "", protocol := "http", host := "example.com",
    ip := some "93.184.216.34", port := 80, maxRetries := n, maxPool := 1,
    timeout := 20, proxy := none, proxylist := none, redirect := false,
    randomAgents := none, requestByHostname := false,
    url := "http://93.184.216.34:80/" }

/-- A transport that fails with a connection error on the first attempt and
completes the exchange on every later attempt. -/
def connThenOkTransport : Nat → Exchange → Outcome := fun i _ =>
  if i = 0 then .connectionError else .success 200 "OK" [] []

/-- A transport whose every exchange times out. -/
def timeoutTransport : Nat → Exchange → Outcome := fun _ _ => .timeout

/-- A transport whose every exchange fails the TLS handshake. -/
def sslTransport : Nat → Exchange → Outcome := fun _ _ => .sslError

/-- A transport that fails with a connection error on every attempt except
the last one of an `n`-attempt run, which times out. -/
def connThenTimeoutTransport (n : Nat) : Nat → Exchange → Outcome :=
  fun i _ => if i + 1 = n then .timeout else .connectionError

/-! ### Dictionary lemmas -/

theorem dictGet_dictSet_self (d : List (String × String)) (k v : String) :
    dictGet (dictSet d k v) k = some v := by
  induction d with
  | nil => simp [dictSet, dictGet]
  | cons hd tl ih =>
    obtain ⟨k0, v0⟩ := hd
    by_cases h : k0 = k <;> simp [dictSet, dictGet, h, ih]

theorem dictGet_dictSet_ne (d : List (String × String)) (k v k2 : String)
    (h : k ≠ k2) : dictGet (dictSet d k v) k2 = dictGet d k2 := by
  induction d with
  | nil => simp [dictSet, dictGet, h]
  | cons hd tl ih =>
    obtain ⟨k0, v0⟩ := hd
    by_cases h0 : k0 = k
    · subst h0
      simp [dictSet, dictGet, h]
    · simp [dictSet, dictGet, h0, ih]

/-! ### Projections of the per-attempt state updates -/

@[simp] theorem uaUpdate_url (r : Requester) (p : Nat) :
    (uaUpdate r p).url = r.url := by
  cases hr : r.randomAgents with
  | none => simp [uaUpdate, hr]
  | some agents => by_cases ha : agents = [] <;> simp [uaUpdate, hr, ha]

@[simp] theorem uaUpdate_basePath (r : Requester) (p : Nat) :
    (uaUpdate r p).basePath = r.basePath := by
  cases hr : r.randomAgents with
  | none => simp [uaUpdate, hr]
  | some agents => by_cases ha : agents = [] <;> simp [uaUpdate, hr, ha]

@[simp] theorem uaUpdate_protocol (r : Requester) (p : Nat) :
    (uaUpdate r p).protocol = r.protocol := by
  cases hr : r.randomAgents with
  | none => simp [uaUpdate, hr]
  | some agents => by_cases ha : agents = [] <;> simp [uaUpdate, hr, ha]

@[simp] theorem uaUpdate_host (r : Requester) (p : Nat) :
    (uaUpdate r p).host = r.host := by
  cases hr : r.randomAgents with
  | none => simp [uaUpdate, hr]
  | some agents => by_cases ha : agents = [] <;> simp [uaUpdate, hr, ha]

@[simp] theorem uaUpdate_port (r : Requester) (p : Nat) :
    (uaUpdate r p).port = r.port := by
  cases hr : r.randomAgents with
  | none => simp [uaUpdate, hr]
  | some agents => by_cases ha : agents = [] <;> simp [uaUpdate, hr, ha]

@[simp] theorem uaUpdate_proxylist (r : Requester) (p : Nat) :
    (uaUpdate r p).proxylist = r.proxylist := by
  cases hr : r.randomAgents with
  | none => simp [uaUpdate, hr]
  | some agents => by_cases ha : agents = [] <;> simp [uaUpdate, hr, ha]

@[simp] theorem uaUpdate_proxy (r : Requester) (p : Nat) :
    (uaUpdate r p).proxy = r.proxy := by
  cases hr : r.randomAgents with
  | none => simp [uaUpdate, hr]
  | some agents => by_cases ha : agents = [] <;> simp [uaUpdate, hr, ha]

@[simp] theorem uaUpdate_randomAgents (r : Requester) (p : Nat) :
    (uaUpdate r p).randomAgents = r.randomAgents := by
  cases hr : r.randomAgents with
  | none => simp [uaUpdate, hr]
  | some agents => by_cases ha : agents = [] <;> simp [uaUpdate, hr, ha]

theorem uaUpdate_of_none (r : Requester) (p : Nat)
    (h : r.randomAgents = none) : uaUpdate r p = r := by
  simp [uaUpdate, h]

theorem dictGet_uaUpdate_ne (r : Requester) (p : Nat) (k : String)
    (h : k ≠ "User-Agent") :
    dictGet (uaUpdate r p).headers k = dictGet r.headers k := by
  cases hr : r.randomAgents with
  | none => simp [uaUpdate, hr]
  | some agents =>
    by_cases ha : agents = []
    · simp [uaUpdate, hr, ha]
    · simp [uaUpdate, hr, ha]
      exact dictGet_dictSet_ne _ _ _ _ (fun hh => h hh.symm)

/-! ### Step equations, one per classified outcome -/

theorem stepAttempt_success (transport : Nat → Exchange → Outcome)
    (pickP pickUA : Nat → Nat) (path : String) (i : Nat) (s : LoopState)
    (code : Int) (reason : String) (hdrs : List (String × String))
    (body : List Nat)
    (ht : transport i (exchangeAt pickP pickUA path i s) =
      .success code reason hdrs body) :
    stepAttempt transport pickP pickUA path i s =
      .halt { req := uaUpdate s.req (pickUA i),
              proxy := (normalizeStep (resolveProxy s (pickP i))).1,
              result := some ⟨code, reason, hdrs, body⟩,
              error := s.error, attempts := s.attempts + 1 } := by
  simp only [stepAttempt, ht]

theorem stepAttempt_sslError (transport : Nat → Exchange → Outcome)
    (pickP pickUA : Nat → Nat) (path : String) (i : Nat) (s : LoopState)
    (ht : transport i (exchangeAt pickP pickUA path i s) = .sslError) :
    stepAttempt transport pickP pickUA path i s =
      .next { req := { uaUpdate s.req (pickUA i) with
                url := mkBaseUrl s.req.protocol s.req.host s.req.port },
              proxy := (normalizeStep (resolveProxy s (pickP i))).1,
              result := s.result, error := s.error,
              attempts := s.attempts + 1 } := by
  simp only [stepAttempt, ht, uaUpdate_protocol, uaUpdate_host, uaUpdate_port]

theorem stepAttempt_timeout (transport : Nat → Exchange → Outcome)
    (pickP pickUA : Nat → Nat) (path : String) (i : Nat) (s : LoopState)
    (ht : transport i (exchangeAt pickP pickUA path i s) = .timeout) :
    stepAttempt transport pickP pickUA path i s =
      .next { req := uaUpdate s.req (pickUA i),
              proxy := (normalizeStep (resolveProxy s (pickP i))).1,
              result := s.result,
              error := some ("Request timeout: " ++
                (s.req.url ++ s.req.basePath ++ path)),
              attempts := s.attempts + 1 } := by
  simp only [stepAttempt, ht]

theorem stepAttempt_connectionError (transport : Nat → Exchange → Outcome)
    (pickP pickUA : Nat → Nat) (path : String) (i : Nat) (s : LoopState)
    (ht : transport i (exchangeAt pickP pickUA path i s) =
      .connectionError) :
    stepAttempt transport pickP pickUA path i s =
      .next { req := uaUpdate s.req (pickUA i),
              proxy := (normalizeStep (resolveProxy s (pickP i))).1,
              result := s.result,
              error := some ("Cannot connect to: " ++ s.req.host ++ ":" ++
                toString s.req.port),
              attempts := s.attempts + 1 } := by
  simp only [stepAttempt, ht]

/-! ### Generic step projections -/

theorem stepAttempt_state_headers (transport : Nat → Exchange → Outcome)
    (pickP pickUA : Nat → Nat) (path : String) (i : Nat) (s : LoopState) :
    (stepAttempt transport pickP pickUA path i s).state.req.headers =
      (uaUpdate s.req (pickUA i)).headers := by
  simp only [stepAttempt]
  cases transport i (exchangeAt pickP pickUA path i s) <;>
    simp [StepOut.state]

theorem stepAttempt_state_proxy (transport : Nat → Exchange → Outcome)
    (pickP pickUA : Nat → Nat) (path : String) (i : Nat) (s : LoopState) :
    (stepAttempt transport pickP pickUA path i s).state.proxy =
      (normalizeStep (resolveProxy s (pickP i))).1 := by
  simp only [stepAttempt]
  cases transport i (exchangeAt pickP pickUA path i s) <;>
    simp [StepOut.state]

/-! ### Run-level lemmas -/

theorem runLoop_timeout (transport : Nat → Exchange → Outcome)
    (pickP pickUA : Nat → Nat) (path : String)
    (h : ∀ j ex, transport j ex = Outcome.timeout) :
    ∀ (fuel i : Nat) (s : LoopState),
      (runLoop transport pickP pickUA path fuel i s).attempts =
          s.attempts + fuel ∧
        (runLoop transport pickP pickUA path fuel i s).result = s.result ∧
        (runLoop transport pickP pickUA path fuel i s).error =
          (if fuel = 0 then s.error else
            some ("Request timeout: " ++
              (s.req.url ++ s.req.basePath ++ path))) := by
  intro fuel
  induction fuel with
  | zero => intro i s; simp [runLoop]
  | succ n ih =>
    intro i s
    rw [runLoop, stepAttempt_timeout transport pickP pickUA path i s (h i _)]
    obtain ⟨h1, h2, h3⟩ := ih (i + 1)
      { req := uaUpdate s.req (pickUA i),
        proxy := (normalizeStep (resolveProxy s (pickP i))).1,
        result := s.result,
        error := some ("Request timeout: " ++
          (s.req.url ++ s.req.basePath ++ path)),
        attempts := s.attempts + 1 }
    refine ⟨?_, by simpa using h2, ?_⟩
    · rw [h1]
      simp
      omega
    · rw [h3]
      cases n <;> simp

theorem runLoop_ssl (transport : Nat → Exchange → Outcome)
    (pickP pickUA : Nat → Nat) (path : String)
    (h : ∀ j ex, transport j ex = Outcome.sslError) :
    ∀ (fuel i : Nat) (s : LoopState),
      (runLoop transport pickP pickUA path fuel i s).attempts =
          s.attempts + fuel ∧
        (runLoop transport pickP pickUA path fuel i s).result = s.result ∧
        (runLoop transport pickP pickUA path fuel i s).error = s.error := by
  intro fuel
  induction fuel with
  | zero => intro i s; simp [runLoop]
  | succ n ih =>
    intro i s
    rw [runLoop, stepAttempt_sslError transport pickP pickUA path i s (h i _)]
    obtain ⟨h1, h2, h3⟩ := ih (i + 1)
      { req := { uaUpdate s.req (pickUA i) with
          url := mkBaseUrl s.req.protocol s.req.host s.req.port },
        proxy := (normalizeStep (resolveProxy s (pickP i))).1,
        result := s.result, error := s.error,
        attempts := s.attempts + 1 }
    refine ⟨?_, by simpa using h2, by simpa using h3⟩
    rw [h1]
    simp
    omega

theorem runLoop_connThenTimeout (n : Nat) (pickP pickUA : Nat → Nat)
    (path : String) :
    ∀ (fuel i : Nat) (s : LoopState), i + fuel = n → 1 ≤ fuel →
      (runLoop (connThenTimeoutTransport n) pickP pickUA path fuel i
            s).attempts = s.attempts + fuel ∧
        (runLoop (connThenTimeoutTransport n) pickP pickUA path fuel i
            s).result = s.result ∧
        (runLoop (connThenTimeoutTransport n) pickP pickUA path fuel i
            s).error =
          some ("Request timeout: " ++
            (s.req.url ++ s.req.basePath ++ path)) := by
  intro fuel
  induction fuel with
  | zero => intro i s _ hf; omega
  | succ m ih =>
    intro i s hn _
    by_cases hm : m = 0
    · subst hm
      have hlast : i + 1 = n := by omega
      have ht : connThenTimeoutTransport n i
          (exchangeAt pickP pickUA path i s) = Outcome.timeout := by
        simp [connThenTimeoutTransport, hlast]
      rw [runLoop, stepAttempt_timeout _ pickP pickUA path i s ht]
      simp [runLoop]
    · have hmid : i + 1 ≠ n := by omega
      have ht : connThenTimeoutTransport n i
          (exchangeAt pickP pickUA path i s) = Outcome.connectionError := by
        simp [connThenTimeoutTransport, hmid]
      rw [runLoop, stepAttempt_connectionError _ pickP pickUA path i s ht]
      obtain ⟨h1, h2, h3⟩ := ih (i + 1)
        { req := uaUpdate s.req (pickUA i),
          proxy := (normalizeStep (resolveProxy s (pickP i))).1,
          result := s.result,
          error := some ("Cannot connect to: " ++ s.req.host ++ ":" ++
            toString s.req.port),
          attempts := s.attempts + 1 }
        (by omega) (by omega)
      refine ⟨?_, by simpa using h2, by simpa using h3⟩
      rw [h1]
      simp
      omega

theorem runLoop_headers_get (transport : Nat → Exchange → Outcome)
    (pickP pickUA : Nat → Nat) (path : String) (k : String)
    (hk : k ≠ "User-Agent") :
    ∀ (fuel i : Nat) (s : LoopState),
      dictGet (runLoop transport pickP pickUA path fuel i s).req.headers k =
        dictGet s.req.headers k := by
  intro fuel
  induction fuel with
  | zero => intro i s; simp [runLoop]
  | succ n ih =>
    intro i s
    rw [runLoop]
    cases hstep : stepAttempt transport pickP pickUA path i s with
    | halt s1 =>
      have hh := stepAttempt_state_headers transport pickP pickUA path i s
      rw [hstep] at hh
      simp only [StepOut.state] at hh
      simp [hh, dictGet_uaUpdate_ne _ _ _ hk]
    | next s1 =>
      have hh := stepAttempt_state_headers transport pickP pickUA path i s
      rw [hstep] at hh
      simp only [StepOut.state] at hh
      simp only []
      rw [ih (i + 1) s1, hh, dictGet_uaUpdate_ne _ _ _ hk]

theorem runLoop_proxy_persist (transport : Nat → Exchange → Outcome)
    (pickP pickUA : Nat → Nat) (path : String) (p : String) (hp : p ≠ "")
    (hnorm : normalizeProxy p = p) :
    ∀ (fuel i : Nat) (s : LoopState), s.proxy = some p →
      (runLoop transport pickP pickUA path fuel i s).proxy = some p := by
  intro fuel
  induction fuel with
  | zero => intro i s hs; simpa [runLoop] using hs
  | succ n ih =>
    intro i s hs
    have hres : resolveProxy s (pickP i) = some p := by
      simp [resolveProxy, hs, truthyS, hp]
    have hone : (normalizeStep (resolveProxy s (pickP i))).1 = some p := by
      rw [hres]
      simp [normalizeStep, hp, hnorm]
    rw [runLoop]
    cases hstep : stepAttempt transport pickP pickUA path i s with
    | halt s1 =>
      have hh := stepAttempt_state_proxy transport pickP pickUA path i s
      rw [hstep] at hh
      simp only [StepOut.state] at hh
      simpa [hh] using hone
    | next s1 =>
      have hh := stepAttempt_state_proxy transport pickP pickUA path i s
      rw [hstep] at hh
      simp only [StepOut.state] at hh
      exact ih (i + 1) s1 (hh.trans hone)

/-! ### Claim C1 -/

/-- **C1** (code bug): with a transport that fails with a connection error
on attempt 1 and completes the exchange on attempt 2, `request()` does
perform exactly 2 attempts, but — because line 211 raises whenever a
pending error message exists, even after a successful `break` — the call
raises the stale connection-error message instead of returning the second
exchange's `Response`. -/
theorem request_success_after_failure_still_raises :
    (Requester.request (mkReq 2) "admin" none connThenOkTransport zeros
        zeros).attempts = 2 ∧
      (Requester.request (mkReq 2) "admin" none connThenOkTransport zeros
        zeros).outcome = .error "Cannot connect to: example.com:80" := by
  exact ⟨rfl, rfl⟩

/-! ### Claim C2 -/

/-- **C2** (counterexample): with `maxRetries = 0` — a value the
constructor accepts — and a transport whose every exchange times out, the
loop body never runs: `request()` performs 0 attempts and returns `None`
instead of failing, so the claim is false for `N = 0`. -/
theorem request_zero_retries_returns_none :
    (Requester.request (mkReq 0) "p" none timeoutTransport zeros
        zeros).attempts = 0 ∧
      (Requester.request (mkReq 0) "p" none timeoutTransport zeros
        zeros).outcome = .ok none := by
  exact ⟨rfl, rfl⟩

/-- **C2** (amended): for every `maxRetries = N ≥ 1`, (1) with a transport
whose every exchange raises a timeout-family failure, `request()` performs
exactly `N` attempts and fails with the message
`Request timeout: <url>`; (2) when earlier attempts fail with a connection
error and only the last with a timeout, the surfaced message is still the
timeout one — only the last-observed error message survives. -/
theorem request_all_timeouts_exhausts_retries (r : Requester) (path : String)
    (pinned : Option String) (pickP pickUA : Nat → Nat)
    (hN : 1 ≤ r.maxRetries) :
    (∀ transport : Nat → Exchange → Outcome,
        (∀ i ex, transport i ex = Outcome.timeout) →
        (Requester.request r path pinned transport pickP pickUA).attempts =
            r.maxRetries ∧
          (Requester.request r path pinned transport pickP pickUA).outcome =
            .error ("Request timeout: " ++ (r.url ++ r.basePath ++ path))) ∧
      ((Requester.request r path pinned
            (connThenTimeoutTransport r.maxRetries) pickP pickUA).attempts =
          r.maxRetries ∧
        (Requester.request r path pinned
            (connThenTimeoutTransport r.maxRetries) pickP pickUA).outcome =
          .error ("Request timeout: " ++ (r.url ++ r.basePath ++ path))) := by
  constructor
  · intro transport ht
    obtain ⟨h1, h2, h3⟩ := runLoop_timeout transport pickP pickUA path ht
      r.maxRetries 0
      { req := r, proxy := pinned, result := none, error := none,
        attempts := 0 }
    have hne : r.maxRetries ≠ 0 := by omega
    constructor
    · simpa [Requester.request] using h1
    · simp only [Requester.request]
      rw [h3]
      simp [hne]
  · obtain ⟨h1, h2, h3⟩ := runLoop_connThenTimeout r.maxRetries pickP pickUA
      path r.maxRetries 0
      { req := r, proxy := pinned, result := none, error := none,
        attempts := 0 }
      (by omega) hN
    constructor
    · simpa [Requester.request] using h1
    · simp only [Requester.request]
      rw [h3]

/-- **C2** witness: the amended theorem applied to `mkReq 3`, three
attempts and a `Request timeout:` failure in both scenarios. -/
theorem request_all_timeouts_exhausts_retries_witness :
    1 ≤ (mkReq 3).maxRetries ∧
      ((Requester.request (mkReq 3) "p" none timeoutTransport zeros
            zeros).attempts = 3 ∧
        (Requester.request (mkReq 3) "p" none timeoutTransport zeros
            zeros).outcome =
          .error "Request timeout: http://93.184.216.34:80/p") ∧
      ((Requester.request (mkReq 3) "p" none (connThenTimeoutTransport 3)
            zeros zeros).attempts = 3 ∧
        (Requester.request (mkReq 3) "p" none (connThenTimeoutTransport 3)
            zeros zeros).outcome =
          .error "Request timeout: http://93.184.216.34:80/p") := by
  have h := request_all_timeouts_exhausts_retries (mkReq 3) "p" none zeros
    zeros (by decide)
  exact ⟨by decide, h.1 timeoutTransport (fun _ _ => rfl), h.2⟩

/-! ### Claim C3 -/

/-- **C3**: when every attempt of a call fails via the TLS-handshake
(`SSLError`) path, no pending error message is ever set and no `Response`
is produced: the call returns `None` (neither a `Response` nor a raised
failure), after consuming all `maxRetries` attempts. -/
theorem request_all_ssl_returns_empty (r : Requester) (path : String)
    (pinned : Option String) (transport : Nat → Exchange → Outcome)
    (pickP pickUA : Nat → Nat)
    (ht : ∀ i ex, transport i ex = Outcome.sslError) :
    (Requester.request r path pinned transport pickP pickUA).outcome =
        .ok none ∧
      (Requester.request r path pinned transport pickP pickUA).attempts =
        r.maxRetries := by
  obtain ⟨h1, h2, h3⟩ := runLoop_ssl transport pickP pickUA path ht
    r.maxRetries 0
    { req := r, proxy := pinned, result := none, error := none,
      attempts := 0 }
  constructor
  · simp only [Requester.request]
    rw [h3, h2]
  · simpa [Requester.request] using h1

/-- **C3** witness: an always-`SSLError` transport against `mkReq 3`. -/
theorem request_all_ssl_returns_empty_witness :
    (Requester.request (mkReq 3) "p" none sslTransport zeros
        zeros).outcome = .ok none ∧
      (Requester.request (mkReq 3) "p" none sslTransport zeros
        zeros).attempts = 3 := by
  exact request_all_ssl_returns_empty (mkReq 3) "p" none sslTransport zeros
    zeros (fun _ _ => rfl)

/-! ### Claim C6 -/

/-- **C6**: on a TLS handshake failure (`SSLError`) during an attempt, the
base URL is rebuilt as `protocol://host:port/` from the hostname —
regardless of `requestByHostname` — the pending error message and the
`result` local are left untouched, the loop `continue`s (a `next` step,
never a `halt`), and the attempt changes no other `Requester` field: the
whole `self` transition is `url := mkBaseUrl …` applied after the
User-Agent rotation, which itself is the identity when `randomAgents` is
not configured. -/
theorem ssl_failure_rebuilds_url_keeps_state
    (transport : Nat → Exchange → Outcome) (pickP pickUA : Nat → Nat)
    (path : String) (i : Nat) (s : LoopState)
    (ht : transport i (exchangeAt pickP pickUA path i s) =
      Outcome.sslError) :
    stepAttempt transport pickP pickUA path i s =
        .next { req := { uaUpdate s.req (pickUA i) with
                  url := mkBaseUrl s.req.protocol s.req.host s.req.port },
                proxy := (normalizeStep (resolveProxy s (pickP i))).1,
                result := s.result, error := s.error,
                attempts := s.attempts + 1 } ∧
      (s.req.randomAgents = none →
        stepAttempt transport pickP pickUA path i s =
          .next { req := { s.req with
                    url := mkBaseUrl s.req.protocol s.req.host s.req.port },
                  proxy := (normalizeStep (resolveProxy s (pickP i))).1,
                  result := s.result, error := s.error,
                  attempts := s.attempts + 1 }) := by
  refine ⟨stepAttempt_sslError transport pickP pickUA path i s ht,
    fun hra => ?_⟩
  rw [stepAttempt_sslError transport pickP pickUA path i s ht,
    uaUpdate_of_none _ _ hra]

/-- A concrete loop state at the start of a call on `mkReq 1`. -/
def sampleState : LoopState :=
  { req := mkReq 1, proxy := none, result := none, error := none,
    attempts := 0 }

/-- **C6** witness: the TLS-fallback transition evaluated on a concrete
state; the rebuilt URL is the hostname-based
`http://example.com:80/` although `requestByHostname` is `false`. -/
theorem ssl_failure_rebuilds_url_keeps_state_witness :
    sslTransport 0 (exchangeAt zeros zeros "x" 0 sampleState) =
        Outcome.sslError ∧
      stepAttempt sslTransport zeros zeros "x" 0 sampleState =
        .next { req := { mkReq 1 with url := "http://example.com:80/" },
                proxy := none, result := none, error := none,
                attempts := 1 } := by
  have h := ssl_failure_rebuilds_url_keeps_state sslTransport zeros zeros
    "x" 0 sampleState rfl
  exact ⟨rfl, (h.2 rfl).trans (by rfl)⟩

/-! ### Claim C8 -/

theorem getD_mem_of_lt (l : List String) (i : Nat) (h : i < l.length) :
    l.getD i "" ∈ l := by
  induction l generalizing i with
  | nil => simp at h
  | cons a tl ih =>
    cases i with
    | zero => simp [List.getD]
    | succ j =>
      have : tl.getD j "" ∈ tl := ih j (by simpa using h)
      simpa [List.getD] using Or.inr this

theorem normalizeStep_falsy (o : Option String) (h : truthyS o = false) :
    normalizeStep o = (o, none) := by
  cases o with
  | none => rfl
  | some p =>
    have hp : p = "" := by simpa [truthyS] using h
    subst hp
    simp [normalizeStep]

/-- **C8**: per call, the proxy is resolved in order — the truthy pinned
argument wins; else a member of a truthy proxy list (always a member, the
oracle index is reduced modulo the length); else the truthy instance
proxy; else the falsy value is kept and no proxies dict is passed — and
the call's proxy variable always holds the normalized resolved value, so a
truthy normalized proxy persists unchanged through all remaining
iterations of the call. -/
theorem proxy_resolution_order (s : LoopState) (pick : Nat) :
    (∀ p : String, s.proxy = some p → p ≠ "" →
        resolveProxy s pick = some p) ∧
      (truthyS s.proxy = false → ∀ l : List String,
        s.req.proxylist = some l → l ≠ [] →
        resolveProxy s pick = some (listChoice l pick) ∧
          listChoice l pick ∈ l) ∧
      (truthyS s.proxy = false → truthyL s.req.proxylist = false →
        truthyS s.req.proxy = true → resolveProxy s pick = s.req.proxy) ∧
      (truthyS s.proxy = false → truthyL s.req.proxylist = false →
        truthyS s.req.proxy = false →
        resolveProxy s pick = s.proxy ∧
          (normalizeStep (resolveProxy s pick)).2 = none) ∧
      (∀ (transport : Nat → Exchange → Outcome) (pickP pickUA : Nat → Nat)
          (path : String) (i : Nat),
        (stepAttempt transport pickP pickUA path i s).state.proxy =
          (normalizeStep (resolveProxy s (pickP i))).1) ∧
      (∀ (transport : Nat → Exchange → Outcome) (pickP pickUA : Nat → Nat)
          (path : String) (fuel i : Nat) (p : String),
        s.proxy = some p → p ≠ "" → normalizeProxy p = p →
        (runLoop transport pickP pickUA path fuel i s).proxy = some p) := by
  refine ⟨?_, ?_, ?_, ?_, ?_, ?_⟩
  · intro p hp hne
    simp [resolveProxy, hp, truthyS, hne]
  · intro hs l hl hlne
    refine ⟨by simp [resolveProxy, hs, truthyL, hl, hlne], ?_⟩
    exact getD_mem_of_lt l _ (Nat.mod_lt _ (List.length_pos.mpr hlne))
  · intro hs hl hp
    simp [resolveProxy, hs, hl, hp]
  · intro hs hl hp
    have hres : resolveProxy s pick = s.proxy := by
      simp [resolveProxy, hs, hl, hp]
    exact ⟨hres, by rw [hres, normalizeStep_falsy _ hs]⟩
  · intro transport pickP pickUA path i
    exact stepAttempt_state_proxy transport pickP pickUA path i s
  · intro transport pickP pickUA path fuel i p hp hne hnorm
    exact runLoop_proxy_persist transport pickP pickUA path p hne hnorm
      fuel i s hp

/-- A loop state with a pinned call-level proxy. -/
def statePinned : LoopState :=
  { req := mkReq 1, proxy := some "http://pinned:1080", result := none,
    error := none, attempts := 0 }

/-- A loop state whose requester carries a two-element proxy list. -/
def stateListed : LoopState :=
  { req := { mkReq 1 with proxylist := some ["http://p1:3128", "http://p2:3128"] },
    proxy := none, result := none, error := none, attempts := 0 }

/-- A loop state whose requester carries a single instance proxy. -/
def stateInstanced : LoopState :=
  { req := { mkReq 1 with proxy := some "http://single:3128" },
    proxy := none, result := none, error := none, attempts := 0 }

/-- **C8** witness: every branch of the resolution order evaluated on
concrete states, including list membership of the rotated pick and the
persistence of a pinned proxy across a whole 5-attempt call. -/
theorem proxy_resolution_order_witness :
    resolveProxy statePinned 0 = some "http://pinned:1080" ∧
      (resolveProxy stateListed 1 = some "http://p2:3128" ∧
        ("http://p2:3128" : String) ∈ ["http://p1:3128", "http://p2:3128"]) ∧
      resolveProxy stateInstanced 0 = some "http://single:3128" ∧
      (resolveProxy sampleState 0 = none ∧
        (normalizeStep (resolveProxy sampleState 0)).2 = none) ∧
      (stepAttempt timeoutTransport zeros zeros "x" 0 stateListed).state.proxy =
        (normalizeStep (resolveProxy stateListed 0)).1 ∧
      (runLoop timeoutTransport zeros zeros "x" 5 0 statePinned).proxy =
        some "http://pinned:1080" := by
  have h1 := (proxy_resolution_order statePinned 0).1 "http://pinned:1080"
    rfl (by decide)
  have h2 := (proxy_resolution_order stateListed 1).2.1 (by decide)
    ["http://p1:3128", "http://p2:3128"] rfl (by decide)
  have h3 := (proxy_resolution_order stateInstanced 0).2.2.1 (by decide)
    (by decide) (by decide)
  have h4 := (proxy_resolution_order sampleState 0).2.2.2.1 (by decide)
    (by decide) (by decide)
  have h5 := (proxy_resolution_order stateListed 0).2.2.2.2.1
    timeoutTransport zeros zeros "x" 0
  have h6 := (proxy_resolution_order statePinned 0).2.2.2.2.2
    timeoutTransport zeros zeros "x" 5 0 "http://pinned:1080" rfl
    (by decide) (by decide)
  exact ⟨h1, ⟨h2.1, h2.2⟩, h3.trans (by rfl), h4, h5, h6⟩

/-! ### Claim C4 -/

/-- **C4** (counterexample): DNS pinning (lines 74-82) runs *before* port
validation (lines 85-92), so normalizing `http://host:abc/` with no proxy
and a non-resolving host fails with `Couldn't resolve DNS` — not with the
invalid-port ConfigError the claim promises regardless of DNS. -/
theorem invalid_port_preempted_by_dns :
    initRequester "http://host:abc/" 1 5 20 none none none false false
      "get" none none dnsNone =
      .error (.configError "Couldn't resolve DNS") := by
  rfl

/-- **C4** (amended): normalizing `http://host:abc/` with no proxy
configured always fails, but which ConfigError surfaces depends on DNS:
when the host resolves, the port segment is validated and the error cites
the invalid port `abc`; when DNS fails, the DNS error preempts the port
check. -/
theorem invalid_port_config_error (dns : String → Option String) :
    (∀ a : String, dns "host" = some a →
        initRequester "http://host:abc/" 1 5 20 none none none false false
          "get" none none dns =
          .error (.configError "Invalid port number: abc")) ∧
      (dns "host" = none →
        initRequester "http://host:abc/" 1 5 20 none none none false false
          "get" none none dns =
          .error (.configError "Couldn't resolve DNS")) := by
  have hsc : schemeCheck "http://host:abc/" none =
      .ok ⟨"http", "host:abc", "/"⟩ := by rfl
  have hip : ∀ d : String → Option String,
      ipStage (hostOfParsed ⟨"http", "host:abc", "/"⟩) none none none d =
        (match d "host" with
          | some addr => Except.ok (some addr)
          | none =>
            Except.error (InitError.configError "Couldn't resolve DNS")) :=
    fun _ => rfl
  constructor
  · intro a ha
    unfold initRequester
    simp only [hsc]
    rw [hip dns, ha]
    rfl
  · intro ha
    unfold initRequester
    simp only [hsc]
    rw [hip dns, ha]

/-- **C4** witness: the amended theorem evaluated with a resolving oracle
(port error) and a failing oracle (DNS error). -/
theorem invalid_port_config_error_witness :
    dnsConst "host" = some "93.184.216.34" ∧
      initRequester "http://host:abc/" 1 5 20 none none none false false
        "get" none none dnsConst =
        .error (.configError "Invalid port number: abc") ∧
      dnsNone "host" = none ∧
      initRequester "http://host:abc/" 1 5 20 none none none false false
        "get" none none dnsNone =
        .error (.configError "Couldn't resolve DNS") := by
  exact ⟨rfl, (invalid_port_config_error dnsConst).1 "93.184.216.34" rfl,
    rfl, (invalid_port_config_error dnsNone).2 rfl⟩

/-! ### Claim C5 -/

/-- Whether an `__init__` outcome is the unsupported-scheme failure. -/
def isUnsupportedSchemeError : Except InitError Requester → Bool
  | .error (.configError m) => ("Unsupported URL scheme: ".data).isPrefixOf m.data
  | _ => false

theorem ipStage_error_inv (host : String) (ip proxy : Option String)
    (pl : Option (List String)) (dns : String → Option String)
    (e : InitError) (h : ipStage host ip proxy pl dns = .error e) :
    e = .configError "Couldn't resolve DNS" := by
  unfold ipStage at h
  split at h
  · exact Except.noConfusion h
  split at h
  · split at h
    · exact Except.noConfusion h
    · injection h with h
      exact h.symm
  · exact Except.noConfusion h

theorem portStage_error_inv (p : PyParsed) (e : InitError)
    (h : portStage p = .error e) :
    ∃ seg : String, e = .configError ("Invalid port number: " ++ seg) := by
  unfold portStage at h
  split at h
  · exact Except.noConfusion h
  · split at h
    · exact Except.noConfusion h
    · injection h with h
      exact ⟨_, h.symm⟩

theorem urlStage_error_inv (rbh : Bool) (protocol host : String)
    (ipField : Option String) (port : Int) (e : InitError)
    (h : urlStage rbh protocol host ipField port = .error e) :
    e = .attributeError := by
  unfold urlStage at h
  split at h
  · exact Except.noConfusion h
  · split at h
    · exact Except.noConfusion h
    · injection h with h
      exact h.symm

theorem unsupported_not_prefix_of_port (seg : String) :
    ("Unsupported URL scheme: ".data).isPrefixOf
      (("Invalid port number: " ++ seg).data) = false := by
  rw [String.data_append]
  have h1 : "Unsupported URL scheme: ".data =
    'U' :: "nsupported URL scheme: ".data := rfl
  have h2 : "Invalid port number: ".data =
    'I' :: "nvalid port number: ".data := rfl
  rw [h1, h2, List.cons_append, List.isPrefixOf]
  simp

/-- **C5** (counterexample): the unsupported-scheme check sits in an
`elif` (line 60), so when the input URL lacks `://` and the scheme is
synthesized, no validation happens at all: `host/` with no default scheme
constructs successfully with protocol `none` (the lowercased text of
Python's `None`), and with default scheme `ftp` it constructs with
protocol `ftp` — instead of failing as the claim states. -/
theorem synthesized_scheme_never_validated :
    hasDelim "host/" = false ∧
      (initRequester "host/" 1 5 20 none none none false false "get" none
          none dnsConst).map Requester.protocol = .ok "none" ∧
      (initRequester "host/" 1 5 20 none none none false false "get" none
          (some "ftp") dnsConst).map Requester.protocol = .ok "ftp" := by
  exact ⟨rfl, rfl, rfl⟩

/-- Every failure of `__init__` is one of: the scheme rejection, the DNS
failure, the invalid-port rejection, or the `AttributeError` from the
never-assigned `self.ip`. -/
theorem initRequester_error_inv (url0 : String) (mp mr t : Nat)
    (ip proxy : Option String) (pl : Option (List String)) (rd rbh : Bool)
    (hm : String) (d sc : Option String) (dns : String → Option String)
    (e : InitError)
    (h : initRequester url0 mp mr t ip proxy pl rd rbh hm d sc dns =
      .error e) :
    schemeCheck url0 sc = .error e ∨
      e = .configError "Couldn't resolve DNS" ∨
      (∃ seg : String, e = .configError ("Invalid port number: " ++ seg)) ∨
      e = .attributeError := by
  unfold initRequester at h
  split at h
  · rename_i e2 heq
    injection h with h
    subst h
    exact Or.inl heq
  split at h
  · rename_i e2 heq
    injection h with h
    subst h
    exact Or.inr (Or.inl (ipStage_error_inv _ _ _ _ _ _ heq))
  split at h
  · rename_i e2 heq
    injection h with h
    subst h
    exact Or.inr (Or.inr (Or.inl (portStage_error_inv _ _ heq)))
  split at h
  · rename_i e2 heq
    injection h with h
    subst h
    exact Or.inr (Or.inr (Or.inr (urlStage_error_inv _ _ _ _ _ _ heq)))
  · exact Except.noConfusion h

/-- **C5** (amended): whenever the (slash-completed) input URL has no
`://` delimiter, the scheme is synthesized from `defaultScheme` and the
unsupported-scheme check is skipped entirely: no construction outcome is
an `Unsupported URL scheme:` ConfigError, whatever the default scheme is
(construction may still fail on DNS, on the port segment, or with the
never-assigned-ip AttributeError). -/
theorem no_delimiter_skips_scheme_validation (url0 : String)
    (mp mr t : Nat) (ip proxy : Option String) (pl : Option (List String))
    (rd rbh : Bool) (hm : String) (d sc : Option String)
    (dns : String → Option String) (h : hasDelim url0 = false) :
    isUnsupportedSchemeError
      (initRequester url0 mp mr t ip proxy pl rd rbh hm d sc dns) =
      false := by
  have hsc : schemeCheck url0 sc = .ok (effectiveParsed url0 sc) := by
    simp [schemeCheck, h]
  cases hres : initRequester url0 mp mr t ip proxy pl rd rbh hm d sc dns with
  | ok r => rfl
  | error e =>
    rcases initRequester_error_inv url0 mp mr t ip proxy pl rd rbh hm d sc
        dns e hres with hc | hc | ⟨seg, hc⟩ | hc
    · rw [hsc] at hc
      exact Except.noConfusion hc
    · subst hc
      rfl
    · subst hc
      simpa [isUnsupportedSchemeError] using
        unsupported_not_prefix_of_port seg
    · subst hc
      rfl

/-- **C5** witness: the amended theorem applied to `host/` with default
scheme `ftp`; the construction outcome is not an unsupported-scheme
error. -/
theorem no_delimiter_skips_scheme_validation_witness :
    hasDelim "host/" = false ∧
      isUnsupportedSchemeError
        (initRequester "host/" 1 5 20 none none none false false "get"
          none (some "ftp") dnsConst) = false := by
  exact ⟨rfl, no_delimiter_skips_scheme_validation "host/" 1 5 20 none none
    none false false "get" none (some "ftp") dnsConst rfl⟩

/-! ### Claim C7 -/

theorem schemeCheck_ok_inv (url0 : String) (sc : Option String)
    (parsed : PyParsed) (h : schemeCheck url0 sc = .ok parsed) :
    parsed = effectiveParsed url0 sc := by
  unfold schemeCheck at h
  split at h
  · exact Except.noConfusion h
  · injection h with h
    exact h.symm

/-- What a successful construction pins down: the fields of the built
`Requester` in terms of the parsed URL. -/
theorem initRequester_ok_inv (url0 : String) (mp mr t : Nat)
    (ip proxy : Option String) (pl : Option (List String)) (rd rbh : Bool)
    (hm : String) (d sc : Option String) (dns : String → Option String)
    (r : Requester)
    (h : initRequester url0 mp mr t ip proxy pl rd rbh hm d sc dns =
      .ok r) :
    r.protocol = (effectiveParsed url0 sc).scheme ∧
      r.host = hostOfParsed (effectiveParsed url0 sc) ∧
      r.basePath = basePathOf (effectiveParsed url0 sc) ∧
      r.headers =
        dictSet [] "Host" (hostHeaderValue r.protocol r.host r.port) ∧
      portStage (effectiveParsed url0 sc) = .ok r.port := by
  unfold initRequester at h
  split at h
  · exact Except.noConfusion h
  split at h
  · exact Except.noConfusion h
  split at h
  · exact Except.noConfusion h
  split at h
  · exact Except.noConfusion h
  rename_i x1 parsed hsc x2 ipField hip x3 port hpt x4 baseUrl hurl
  have hpar := schemeCheck_ok_inv url0 sc parsed hsc
  subst hpar
  injection h with h
  subst h
  exact ⟨rfl, rfl, rfl, rfl, hpt⟩

/-- **C7**: (1) after a successful construction with an `http`/`https`
protocol, the `Host` header equals `host` exactly when the port is the
protocol's default (80 for http, 443 for https) and `host:port`
otherwise; (2) an explicit `setHeader("Host", x)` overrides the value
(storing the trimmed `x`); (3) `request()` never rewrites the `Host`
entry, so the value persists across any call, whatever the transport
does. -/
theorem host_header_management :
    (∀ (url0 : String) (mp mr t : Nat) (ip proxy : Option String)
        (pl : Option (List String)) (rd rbh : Bool) (hm : String)
        (d sc : Option String) (dns : String → Option String)
        (r : Requester),
        initRequester url0 mp mr t ip proxy pl rd rbh hm d sc dns =
          .ok r →
        r.protocol = "http" ∨ r.protocol = "https" →
        dictGet r.headers "Host" =
          some (if (r.protocol = "https" ∧ r.port = 443) ∨
              (r.protocol = "http" ∧ r.port = 80)
            then r.host else r.host ++ ":" ++ toString r.port)) ∧
      (∀ (r : Requester) (x : String), x ≠ "" →
        dictGet (setHeader r "Host" x).headers "Host" =
          some (pyStrip x)) ∧
      (∀ (r : Requester) (path : String) (pinned : Option String)
          (transport : Nat → Exchange → Outcome) (pickP pickUA : Nat → Nat),
        dictGet (Requester.request r path pinned transport pickP
            pickUA).finalReq.headers "Host" =
          dictGet r.headers "Host") := by
  refine ⟨?_, ?_, ?_⟩
  · intro url0 mp mr t ip proxy pl rd rbh hm d sc dns r h hp
    obtain ⟨hprot, hhost, hbase, hheaders, hport⟩ :=
      initRequester_ok_inv url0 mp mr t ip proxy pl rd rbh hm d sc dns r h
    rw [hheaders, dictGet_dictSet_self]
    have hne1 : ("http" : String) ≠ "https" := by decide
    have hne2 : ("https" : String) ≠ "http" := by decide
    rcases hp with hp | hp
    · rw [hp]
      by_cases hpo : r.port = 80
      · simp [hostHeaderValue, hne1, hpo]
      · simp [hostHeaderValue, hne1, hpo]
    · rw [hp]
      by_cases hpo : r.port = 443
      · simp [hostHeaderValue, hne2, hpo]
      · simp [hostHeaderValue, hne2, hpo]
  · intro r x hx
    have hk : pyStrip "Host" = "Host" := by decide
    simp only [setHeader, hk, if_pos hx]
    exact dictGet_dictSet_self _ _ _
  · intro r path pinned transport pickP pickUA
    simp only [Requester.request]
    exact runLoop_headers_get transport pickP pickUA path "Host"
      (by decide) r.maxRetries 0
      { req := r, proxy := pinned, result := none, error := none,
        attempts := 0 }

/-- **C7** witness: a non-default-port and a default-port construction, an
explicit override, and persistence through a 3-attempt timing-out call. -/
theorem host_header_management_witness :
    (initRequester "http://example.com:8080/" 1 5 20 none none none false
        false "get" none none dnsConst).map Requester.headers =
      .ok [("Host", "example.com:8080")] ∧
      (initRequester "https://example.com/" 1 5 20 none none none false
        false "get" none none dnsConst).map Requester.headers =
        .ok [("Host", "example.com")] ∧
      dictGet (setHeader (mkReq 3) "Host" " spoofed.example ").headers
        "Host" = some "spoofed.example" ∧
      dictGet (Requester.request (setHeader (mkReq 3) "Host"
          " spoofed.example ") "p" none timeoutTransport zeros
          zeros).finalReq.headers "Host" = some "spoofed.example" := by
  have h2 := (host_header_management.2.1) (mkReq 3) " spoofed.example "
    (by decide)
  have h3 := (host_header_management.2.2)
    (setHeader (mkReq 3) "Host" " spoofed.example ") "p" none
    timeoutTransport zeros zeros
  exact ⟨rfl, rfl, h2.trans (by rfl), h3.trans (h2.trans (by rfl))⟩

/-! ### Claim C9 -/

theorem data_mk (l : List Char) : (String.mk l).data = l := rfl

theorem pctByte_flatten_head (n : Nat) :
    (((utf8Bytes n).map pctByte).flatten).head? = some '%' := by
  unfold utf8Bytes
  split
  · simp [pctByte]
  split
  · simp [pctByte]
  split
  · simp [pctByte]
  · simp [pctByte]

/-- The quoted form of a character list starts with `/` only if the list
itself does: `/` is in the safe set (quoted to itself) and every encoded
character starts with `%`. -/
theorem quoteList_head_ne_slash (cs : List Char) (h : cs.head? ≠ some '/') :
    (quoteList cs).head? ≠ some '/' := by
  cases cs with
  | nil => simp [quoteList]
  | cons c rest =>
    have hc : c ≠ '/' := by
      intro hh
      exact h (by simp [hh])
    by_cases hs : quoteSafe c
    · simp [quoteList, quoteChar, hs, hc]
    · have hp := pctByte_flatten_head c.toNat
      simp only [quoteList, List.map_cons, List.flatten_cons, quoteChar,
        hs, if_neg]
      cases hfl : ((utf8Bytes c.toNat).map pctByte).flatten with
      | nil =>
        rw [hfl] at hp
        exact absurd hp (by simp)
      | cons a tl =>
        rw [hfl] at hp
        simp only [List.head?_cons, Option.some.injEq] at hp
        subst hp
        simp

/-- **C9** (counterexample): only the first leading `/` of the path is
stripped (line 64 takes `parsed.path[1:]`), so a URL whose path starts
with `//` yields a basePath that still starts with `/`:
`http://host//x/` gives `basePath = "/x/"`. -/
theorem basePath_leading_slash_counterexample :
    (initRequester "http://host//x/" 1 5 20 none none none false false
        "get" none none dnsConst).map Requester.basePath = .ok "/x/" ∧
      "/x/".data.head? = some '/' := by
  exact ⟨rfl, rfl⟩

/-- **C9** (amended): after a successful construction whose parsed URL
path does not begin with `//`, `basePath` never starts with `/`: the
single leading slash is stripped, and quoting leaves `/` (a member of the
explicit safe set) unencoded while every encoded character starts with
`%`, so no new leading slash can appear. -/
theorem basePath_no_leading_slash (url0 : String) (mp mr t : Nat)
    (ip proxy : Option String) (pl : Option (List String)) (rd rbh : Bool)
    (hm : String) (d sc : Option String) (dns : String → Option String)
    (r : Requester)
    (h : initRequester url0 mp mr t ip proxy pl rd rbh hm d sc dns = .ok r)
    (hpath : (effectiveParsed url0 sc).path.data.take 2 ≠ ['/', '/']) :
    r.basePath.data.head? ≠ some '/' := by
  obtain ⟨_, _, hbase, _, _⟩ :=
    initRequester_ok_inv url0 mp mr t ip proxy pl rd rbh hm d sc dns r h
  rw [hbase]
  unfold basePathOf
  cases hcs : (effectiveParsed url0 sc).path.data with
  | nil => simp [quoteList, data_mk]
  | cons c rest =>
    rw [hcs] at hpath
    by_cases hc : c = '/'
    · subst hc
      have hr : rest.head? ≠ some '/' := by
        cases rest with
        | nil => simp
        | cons e tl =>
          intro hh
          simp only [List.head?_cons, Option.some.injEq] at hh
          subst hh
          exact hpath (by simp)
      simp only [data_mk, List.head?_cons, List.tail_cons, if_pos rfl]
      exact quoteList_head_ne_slash rest hr
    · have hcr : (c :: rest).head? ≠ some '/' := by simp [hc]
      simp only [data_mk, List.head?_cons, Option.some.injEq, if_neg hc]
      exact quoteList_head_ne_slash _ hcr

/-- The requester built from `http://host/x/` with a resolving DNS. -/
def c9Req : Requester :=
  { httpmethod := "get", data := none, headers := [("Host", "host")],
    basePath := "x/", protocol := "http", host := "host",
    ip := some "93.184.216.34", port := 80, maxRetries := 5, maxPool := 1,
    timeout := 20, proxy := none, proxylist := none, redirect := false,
    randomAgents := none, requestByHostname := false,
    url := "http://93.184.216.34:80/" }

/-- **C9** witness: a concrete single-slash construction whose basePath
`x/` keeps no leading slash. -/
theorem basePath_no_leading_slash_witness :
    initRequester "http://host/x/" 1 5 20 none none none false false "get"
        none none dnsConst = .ok c9Req ∧
      (effectiveParsed "http://host/x/" none).path.data.take 2 ≠
        ['/', '/'] ∧
      c9Req.basePath.data.head? ≠ some '/' := by
  refine ⟨by rfl, by decide, ?_⟩
  exact basePath_no_leading_slash "http://host/x/" 1 5 20 none none none
    false false "get" none none dnsConst c9Req (by rfl) (by decide)

/-! ### Claim C10 -/

/-- Whether a construction outcome is a success. -/
def exceptIsOk {ε α : Type} : Except ε α → Bool
  | .ok _ => true
  | .error _ => false

theorem ipStage_skip (host : String) (ip proxy : Option String)
    (pl : Option (List String)) (dns : String → Option String)
    (h1 : truthyS ip = false)
    (h2 : truthyS proxy = true ∨ truthyL pl = true) :
    ipStage host ip proxy pl dns = .ok none := by
  rcases h2 with h2 | h2 <;> simp [ipStage, h1, h2]

/-- A successful construction determines each normalization stage. -/
theorem initRequester_ok_stages (url0 : String) (mp mr t : Nat)
    (ip proxy : Option String) (pl : Option (List String)) (rd rbh : Bool)
    (hm : String) (d sc : Option String) (dns : String → Option String)
    (r : Requester)
    (h : initRequester url0 mp mr t ip proxy pl rd rbh hm d sc dns =
      .ok r) :
    schemeCheck url0 sc = .ok (effectiveParsed url0 sc) ∧
      ipStage (hostOfParsed (effectiveParsed url0 sc)) ip proxy pl dns =
        .ok r.ip ∧
      portStage (effectiveParsed url0 sc) = .ok r.port ∧
      urlStage rbh (effectiveParsed url0 sc).scheme
        (hostOfParsed (effectiveParsed url0 sc)) r.ip r.port =
        .ok r.url := by
  unfold initRequester at h
  split at h
  · exact Except.noConfusion h
  split at h
  · exact Except.noConfusion h
  split at h
  · exact Except.noConfusion h
  split at h
  · exact Except.noConfusion h
  rename_i x1 parsed hsc x2 ipField hip x3 port hpt x4 baseUrl hurl
  have hpar := schemeCheck_ok_inv url0 sc parsed hsc
  subst hpar
  injection h with h
  subst h
  exact ⟨hsc, hip, hpt, hurl⟩

/-- **C10**: with a proxy (or proxy list) configured, no override ip and
`requestByHostname = false`, DNS resolution is skipped so `self.ip` is
never assigned, yet building `self.url` reads it: construction can never
succeed, and whenever the same arguments construct fine with
`requestByHostname = true` (showing every ConfigError stage passes), the
`false` variant fails precisely with the AttributeError. -/
theorem proxy_without_ip_never_constructs (url0 : String) (mp mr t : Nat)
    (ip proxy : Option String) (pl : Option (List String)) (rd : Bool)
    (hm : String) (d sc : Option String) (dns : String → Option String)
    (hproxy : truthyS proxy = true ∨ truthyL pl = true)
    (hip : truthyS ip = false) :
    exceptIsOk
        (initRequester url0 mp mr t ip proxy pl rd false hm d sc dns) =
        false ∧
      (exceptIsOk
          (initRequester url0 mp mr t ip proxy pl rd true hm d sc dns) =
          true →
        initRequester url0 mp mr t ip proxy pl rd false hm d sc dns =
          .error .attributeError) := by
  have hskip : ∀ host : String, ipStage host ip proxy pl dns = .ok none :=
    fun host => ipStage_skip host ip proxy pl dns hip hproxy
  constructor
  · cases hres : initRequester url0 mp mr t ip proxy pl rd false hm d sc
        dns with
    | error e => rfl
    | ok r =>
      obtain ⟨_, hip2, _, hurl⟩ := initRequester_ok_stages url0 mp mr t ip
        proxy pl rd false hm d sc dns r hres
      rw [hskip] at hip2
      injection hip2 with hip2
      rw [← hip2] at hurl
      exact Except.noConfusion hurl
  · intro hok
    cases hres : initRequester url0 mp mr t ip proxy pl rd true hm d sc
        dns with
    | error e =>
      rw [hres] at hok
      exact Bool.noConfusion hok
    | ok r =>
      obtain ⟨hsc, _, hpt, _⟩ := initRequester_ok_stages url0 mp mr t ip
        proxy pl rd true hm d sc dns r hres
      unfold initRequester
      simp only [hsc, hskip, hpt]
      rfl

/-- **C10** witness: a single proxy, no override ip: construction with
`requestByHostname = false` fails with the AttributeError while the same
arguments with `requestByHostname = true` construct fine. -/
theorem proxy_without_ip_never_constructs_witness :
    truthyS (some "http://proxy.example:3128") = true ∧
      truthyS (none : Option String) = false ∧
      exceptIsOk (initRequester "http://example.com/" 1 5 20 none
          (some "http://proxy.example:3128") none false false "get" none
          none dnsConst) = false ∧
      exceptIsOk (initRequester "http://example.com/" 1 5 20 none
          (some "http://proxy.example:3128") none false true "get" none
          none dnsConst) = true ∧
      initRequester "http://example.com/" 1 5 20 none
          (some "http://proxy.example:3128") none false false "get" none
          none dnsConst = .error .attributeError := by
  have h := proxy_without_ip_never_constructs "http://example.com/" 1 5 20
    none (some "http://proxy.example:3128") none false "get" none none
    dnsConst (Or.inl (by decide)) (by decide)
  exact ⟨by decide, by decide, h.1, rfl, h.2 rfl⟩

end Dirsearch
